import Mathlib

/-!
Verification of the slurm orchestration script (`scripts/slurm.py`).

The script splits a line-oriented input file into `n_splits` chunks, submits
one batch job per chunk, polls the scheduler until every job is terminal
(resubmitting failed jobs subject to a retry counter), and concatenates the
per-chunk outputs into one final file.

Shallow embedding conventions:
* a text file is a `List String` of its lines;
* the state of the split directory is a `List (Option (List String))`:
  entry `i` is `some content` when `split_i.jsonl` exists with that content,
  `none` when it does not exist (likewise for the `split_i_out.jsonl` files);
* external process results (`subprocess.run`) are a `ProcResult` record of
  return code, stdout and stderr; a query that raised an exception is `none`;
* the scheduler's answers during monitoring are an oracle
  `check : Nat → Nat → Option Bool` mapping (sweep index, job id) to the
  classification computed by `check_job_completed`
  (`some true` = completed, `some false` = failed, `none` = unknown);
* resubmission during monitoring is modelled as succeeding with a fresh
  scheduler-assigned id (`next_id` counter), matching the happy path of
  `resubmit_job`.
-/

/-- Python `str` whitespace test used by `str.split()` / `str.strip()`. -/
def isSpaceChar (c : Char) : Bool :=
  c = ' ' || c = '\t' || c = '\n' || c = '\r' || c = '\x0b' || c = '\x0c'

/-- Accumulator pass behind `pySplit`; `cur` holds the current token reversed. -/
def splitTok : List Char → List Char → List (List Char)
  | [], cur => if cur.isEmpty then [] else [cur.reverse]
  | c :: cs, cur =>
    if isSpaceChar c then
      if cur.isEmpty then splitTok cs [] else cur.reverse :: splitTok cs []
    else splitTok cs (c :: cur)

/-- Python `str.split()` with no argument: split on whitespace runs, no
empty tokens, leading and trailing whitespace ignored. -/
def pySplit (s : String) : List String :=
  (splitTok s.toList []).map String.mk

/-- Python `str.strip()`: remove leading and trailing whitespace. -/
def pyStrip (s : String) : String :=
  String.mk (((s.toList.dropWhile isSpaceChar).reverse.dropWhile isSpaceChar).reverse)

/-- Python `str.splitlines()` restricted to the `\n` separator. -/
def splitLinesAux : List Char → List Char → List String
  | [], cur => if cur.isEmpty then [] else [String.mk cur.reverse]
  | c :: cs, cur =>
    if c = '\n' then String.mk cur.reverse :: splitLinesAux cs []
    else splitLinesAux cs (c :: cur)

/-- Python `str.splitlines()` (newline-separated, no trailing empty line). -/
def pySplitLines (s : String) : List String :=
  splitLinesAux s.toList []

/-- Value of a decimal digit character. -/
def digitVal (c : Char) : Nat := c.toNat - 48

/-- Decimal value of a digit string. -/
def natOfDigits (cs : List Char) : Nat :=
  cs.foldl (fun a c => a * 10 + digitVal c) 0

/-- Python `int(s)` on a decimal literal: optional surrounding whitespace,
optional sign, then a nonempty run of digits; `none` models `ValueError`. -/
def pyInt (s : String) : Option Int :=
  match (pyStrip s).toList with
  | [] => none
  | '-' :: rest =>
    if rest ≠ [] ∧ rest.all Char.isDigit then some (-(natOfDigits rest : Int)) else none
  | '+' :: rest =>
    if rest ≠ [] ∧ rest.all Char.isDigit then some ((natOfDigits rest : Int)) else none
  | cs =>
    if cs.all Char.isDigit then some ((natOfDigits cs : Int)) else none

/-- Prefix test on character lists (needle against the front of the haystack). -/
def beginsWith : List Char → List Char → Bool
  | [], _ => true
  | _ :: _, [] => false
  | a :: as, b :: bs => a == b && beginsWith as bs

/-- Python `needle in hay` substring test on character lists. -/
def containsSub (needle : List Char) : List Char → Bool
  | [] => beginsWith needle []
  | c :: cs => beginsWith needle (c :: cs) || containsSub needle cs

/-- Result of `subprocess.run(..., capture_output=True, text=True)`. -/
structure ProcResult where
  returncode : Int
  stdout : String
  stderr : String
deriving DecidableEq

/-- Embedding of `submit_job` (scripts/slurm.py, lines 66-71), the part that
interprets the `sbatch` invocation's result: a non-zero exit raises
`RuntimeError`; otherwise the job id is `int(result.stdout.strip().split()[-1])`,
where an empty token list raises `IndexError` and an unparsable token raises
`ValueError` (both uncaught, hence fatal). Script rendering and log paths are
side effects without bearing on the returned id, so they are not modelled. -/
def submit_job (r : ProcResult) : Except String Int :=
  if r.returncode ≠ 0 then Except.error ("Failed to submit job: " ++ r.stderr)
  else
    match (pySplit (pyStrip r.stdout)).getLast? with
    | none => Except.error "IndexError: list index out of range"
    | some tok =>
      match pyInt tok with
      | none => Except.error ("ValueError: invalid literal for int: " ++ tok)
      | some id => Except.ok id

/-- Embedding of `check_job_completed` (scripts/slurm.py, lines 73-92).
Input `none` models the `sacct` invocation raising an exception (caught:
result `None`); `some stdout` models a completed invocation with that stdout.
Output: `some true` = completed, `some false` = failed, `none` = unknown. -/
def check_job_completed (queryOutput : Option String) : Option Bool :=
  match queryOutput with
  | none => none
  | some stdout =>
    let state_line := pyStrip stdout
    if state_line = "" then none
    else
      match pySplit state_line with
      | [] => none
      | state :: _ =>
        if state = "COMPLETED" ∨ state = "COMPLETING" then some true
        else if state = "FAILED" ∨ state = "CANCELLED" ∨ state = "TIMEOUT" then some false
        else none

/-- Embedding of `resubmit_job` (scripts/slurm.py, lines 94-99): scan stdout
lines for the first containing "Submitted batch job" and return
`int(line.strip().split()[-1])`; if no line matches, raise `RuntimeError`.
The return code of the `sbatch` invocation is never examined. -/
def resubmit_job (r : ProcResult) : Except String Int :=
  match (pySplitLines r.stdout).find?
      (fun line => containsSub "Submitted batch job".toList line.toList) with
  | some line =>
    match (pySplit (pyStrip line)).getLast? with
    | none => Except.error "IndexError: list index out of range"
    | some tok =>
      match pyInt tok with
      | none => Except.error ("ValueError: invalid literal for int: " ++ tok)
      | some id => Except.ok id
  | none => Except.error ("Failed to resubmit job: " ++ r.stderr)

/-- Chunk size used by the splitter: `(total_lines + n_splits - 1) // n_splits`
(scripts/slurm.py, line 35). -/
def chunkSizeOf (total_lines n_splits : Nat) : Nat :=
  (total_lines + n_splits - 1) / n_splits

/-- Second pass of the splitter (scripts/slurm.py, lines 38-46): for each of
the `n` split files in order, take up to `c` lines from the remaining stream
(`f.readline()` returning "" at end of file breaks early). -/
def writeChunks (c : Nat) : Nat → List String → List (List String)
  | 0, _ => []
  | n + 1, lines => lines.take c :: writeChunks c n (lines.drop c)

/-- Embedding of `split_input_file` (scripts/slurm.py, lines 8-48).
`source` is the input file's lines; `existing` is the pre-call state of the
`n_splits` expected split files (`some content` = exists). The result is the
post-call state of those files paired with the returned `total_lines`.
If every expected split file exists the function skips splitting, leaves the
files untouched, and still counts the source's lines; otherwise it counts the
lines, then writes the chunks (each file opened with mode "w"). -/
def split_input_file (source : List String) (existing : List (Option (List String)))
    (n_splits : Nat) : List (Option (List String)) × Nat :=
  if existing.all Option.isSome then
    (existing, source.length)
  else
    ((writeChunks (chunkSizeOf source.length n_splits) n_splits source).map some,
      source.length)

/-- Loop body of `concatenate_outputs` (scripts/slurm.py, lines 127-134).
The split files are walked in index order; `i` is the current index and `acc`
the lines already copied into the final file (which was opened with mode "w"
before the loop, so it holds `acc` even when an error is raised).
First component: `Except.ok` with the full content, or the
`FileNotFoundError` message for the first split whose `split_i_out.jsonl`
does not exist.  Second component: the final file's content on disk when the
function returns or raises. -/
def concatAux : List (Option (List String)) → Nat → List String →
    Except String (List String) × List String
  | [], _, acc => (Except.ok acc, acc)
  | none :: _, i, acc =>
    (Except.error ("Expected output file not found: split_" ++ toString i ++ "_out.jsonl"),
      acc)
  | some content :: rest, i, acc => concatAux rest (i + 1) (acc ++ content)

/-- Embedding of `concatenate_outputs` (scripts/slurm.py, lines 127-134).
`outs` is the state of the `split_i_out.jsonl` files, in split order. -/
def concatenate_outputs (outs : List (Option (List String))) :
    Except String (List String) × List String :=
  concatAux outs 0 []

/-- Tail of `main` (scripts/slurm.py, lines 161-163): after monitoring,
`concatenate_outputs` is called unconditionally; if it raises, the exception
propagates (run aborts, non-zero exit); otherwise main prints the success
message quoting `total_lines` as the *expected* line count, without counting
the lines of the artifact or comparing anything. `Except.ok` carries the final
artifact's content and the reported expected count. -/
def mainFinalize (outs : List (Option (List String))) (total_lines : Nat) :
    Except String (List String × Nat) :=
  match (concatenate_outputs outs).1 with
  | Except.error e => Except.error e
  | Except.ok content => Except.ok (content, total_lines)

/-- One attempt tracked by the monitor: the scheduler-assigned id plus the
submission script it was created from (standing in for the tuple
`(job_id, stdout_log, stderr_log, slurm_script)`; the two log paths are
determined by the script and carry no information of their own). -/
structure Job where
  id : Nat
  script : Nat
deriving DecidableEq

/-- Monitor state: the mutable locals of `monitor_jobs` plus an audit list of
every job tuple ever created and the scheduler's next fresh id. -/
structure MonState where
  pending : List Job
  retries : List (Nat × Nat)
  history : List Job
  next_id : Nat
deriving DecidableEq

/-- Python `retries_left.get(job_id, 0)` over the association-list model of
the dict (first binding wins; ids are never rebound since scheduler ids are
fresh). -/
def lookupD (m : List (Nat × Nat)) (k : Nat) : Nat :=
  match m.find? (fun p => p.1 == k) with
  | some p => p.2
  | none => 0

/-- Python `list.remove`: drop the first occurrence. -/
def pyRemove : List Job → Job → List Job
  | [], _ => []
  | x :: xs, a => if x = a then xs else x :: pyRemove xs a

/-- Body of the `for job in pending_jobs[:]` loop of `monitor_jobs`
(scripts/slurm.py, lines 106-122) for one job of the sweep's snapshot.
`check j.id` is the classification `check_job_completed` returned for this
job on this sweep. On failure with retries left, the resubmitted job gets the
fresh id `next_id`, is appended to `pending_jobs`, and is recorded in
`retries_left` with value 0 (line 121); then the old tuple is removed. -/
def sweepStep (retry : Bool) (check : Nat → Option Bool) (s : MonState) (j : Job) :
    MonState :=
  match check j.id with
  | some true => { s with pending := pyRemove s.pending j }
  | some false =>
    if retry = true ∧ 0 < lookupD s.retries j.id then
      { pending := pyRemove (s.pending ++ [⟨s.next_id, j.script⟩]) j
        retries := (s.next_id, 0) :: s.retries
        history := s.history ++ [⟨s.next_id, j.script⟩]
        next_id := s.next_id + 1 }
    else { s with pending := pyRemove s.pending j }
  | none => s

/-- One full sweep of `monitor_jobs`: fold the loop body over the snapshot
`pending_jobs[:]` taken at the start of the sweep. -/
def sweep (retry : Bool) (check : Nat → Option Bool) (s : MonState) : MonState :=
  s.pending.foldl (sweepStep retry check) s

/-- The `while pending_jobs:` loop of `monitor_jobs` (scripts/slurm.py,
lines 105-125), with explicit fuel bounding the number of sweeps; `t` counts
sweeps so the oracle can change over time. Returns `some` final state when
the loop converged within the fuel (the Python loop then falls off the end
returning `None` — no success or failure information), `none` when the fuel
ran out (still polling). -/
def monitorFuel (retry : Bool) (check : Nat → Nat → Option Bool) :
    Nat → Nat → MonState → Option MonState
  | 0, _, s => if s.pending = [] then some s else none
  | fuel + 1, t, s =>
    if s.pending = [] then some s
    else monitorFuel retry check fuel (t + 1) (sweep retry (check t) s)

/-- Initial locals of `monitor_jobs` (scripts/slurm.py, lines 102-103):
`pending_jobs = jobs.copy()` and `retries_left = {job[0]: 3 for job in jobs}`
when `retry` is set, else the empty dict. `next` seeds the fresh-id counter
(all initial ids are assumed below it, as scheduler ids are unique). -/
def initMonState (jobs : List Job) (retry : Bool) (next : Nat) : MonState :=
  { pending := jobs
    retries := if retry then jobs.map (fun j => (j.id, 3)) else []
    history := jobs
    next_id := next }

/-- Embedding of `monitor_jobs` (scripts/slurm.py, lines 101-125). -/
def monitor_jobs (jobs : List Job) (retry : Bool) (check : Nat → Nat → Option Bool)
    (next fuel : Nat) : Option MonState :=
  monitorFuel retry check fuel 0 (initMonState jobs retry next)

/-- Status oracle for a four-unit run in which units 0, 1 and 3 complete and
unit 2 always fails: initial jobs have ids 0-3 (id = unit index) and id 4 is
the replacement submitted for unit 2's failed job. -/
def checkUnit2Fails : Nat → Nat → Option Bool :=
  fun _ id => if id = 2 ∨ id = 4 then some false else some true

/-- First-missing-file behaviour of the concatenation loop: when the out
files are `pre` (all present) followed by a missing file followed by
anything, the loop raises the `FileNotFoundError` for index `i + pre.length`
and the final file is left holding `acc` plus the lines of `pre`. -/
lemma concatAux_firstMissing (pre : List (List String)) :
    ∀ (rest : List (Option (List String))) (i : Nat) (acc : List String),
      concatAux (pre.map some ++ none :: rest) i acc
        = (Except.error ("Expected output file not found: split_"
            ++ toString (i + pre.length) ++ "_out.jsonl"), acc ++ pre.flatten) := by
  induction pre with
  | nil => intro rest i acc; simp [concatAux]
  | cons p ps ih =>
    intro rest i acc
    have e1 : concatAux ((p :: ps).map some ++ none :: rest) i acc
        = concatAux (ps.map some ++ none :: rest) (i + 1) (acc ++ p) := rfl
    rw [e1, ih]
    have hn : i + 1 + ps.length = i + (p :: ps).length := by
      simp only [List.length_cons]; omega
    rw [hn]
    simp [List.append_assoc]

/-- Success behaviour of the concatenation loop: when every out file is
present, the loop returns and leaves the concatenation, in index order. -/
lemma concatAux_allPresent (contents : List (List String)) :
    ∀ (i : Nat) (acc : List String),
      concatAux (contents.map some) i acc = (Except.ok (acc ++ contents.flatten),
        acc ++ contents.flatten) := by
  induction contents with
  | nil => intro i acc; simp [concatAux]
  | cons p ps ih =>
    intro i acc
    simp only [List.map_cons, concatAux, ih, List.flatten_cons, List.append_assoc]

/-- The ceiling-division characterisation of the splitter's chunk size:
`chunkSizeOf total n` is the least `m` with `total ≤ n * m`. -/
lemma chunkSizeOf_le_iff (total n m : Nat) (h : 0 < n) :
    chunkSizeOf total n ≤ m ↔ total ≤ n * m := by
  unfold chunkSizeOf
  rw [← Nat.lt_succ_iff, Nat.div_lt_iff_lt_mul h, Nat.succ_mul, Nat.mul_comm n m]
  omega

/-- The n chunks have enough total capacity for the whole source. -/
lemma le_n_mul_chunkSizeOf (total n : Nat) (h : 0 < n) :
    total ≤ n * chunkSizeOf total n :=
  (chunkSizeOf_le_iff total n _ h).mp le_rfl

/-- The splitter's second pass always creates exactly `n` files. -/
lemma writeChunks_length (c : Nat) : ∀ (n : Nat) (lines : List String),
    (writeChunks c n lines).length = n := by
  intro n
  induction n with
  | zero => intro lines; rfl
  | succ m ih => intro lines; simp [writeChunks, ih]

/-- With enough chunk capacity, concatenating the chunks in order reproduces
the source lines exactly. -/
lemma writeChunks_flatten (c : Nat) : ∀ (n : Nat) (lines : List String),
    lines.length ≤ n * c → (writeChunks c n lines).flatten = lines := by
  intro n
  induction n with
  | zero =>
    intro lines h
    have hnil : lines = [] := List.eq_nil_of_length_eq_zero (by omega)
    subst hnil; rfl
  | succ m ih =>
    intro lines h
    have hs : (m + 1) * c = m * c + c := add_one_mul m c
    have hlen : (lines.drop c).length ≤ m * c := by
      simp only [List.length_drop]; omega
    calc (writeChunks c (m + 1) lines).flatten
        = lines.take c ++ (writeChunks c m (lines.drop c)).flatten := rfl
      _ = lines.take c ++ lines.drop c := by rw [ih _ hlen]
      _ = lines := List.take_append_drop c lines

/-- The chunk sizes sum to the source's line count. -/
lemma writeChunks_sum (c n : Nat) (lines : List String)
    (h : lines.length ≤ n * c) :
    ((writeChunks c n lines).map List.length).sum = lines.length := by
  rw [← List.length_flatten, writeChunks_flatten c n lines h]

/-- No chunk holds more than `c` lines. -/
lemma writeChunks_le (c : Nat) : ∀ (n : Nat) (lines : List String),
    ∀ f ∈ writeChunks c n lines, f.length ≤ c := by
  intro n
  induction n with
  | zero => intro lines f hf; simp [writeChunks] at hf
  | succ m ih =>
    intro lines f hf
    simp only [writeChunks, List.mem_cons] at hf
    rcases hf with hf | hf
    · subst hf
      rw [List.length_take]
      exact min_le_left _ _
    · exact ih _ f hf

/-- Chunk `i` holds exactly the source lines with indices in
`[i*c, min((i+1)*c, total))`. -/
lemma writeChunks_getElem (c : Nat) : ∀ (n i : Nat) (lines : List String), i < n →
    (writeChunks c n lines)[i]? = some ((lines.drop (i * c)).take c) := by
  intro n
  induction n with
  | zero => intro i lines h; omega
  | succ m ih =>
    intro i lines h
    cases i with
    | zero => simp [writeChunks]
    | succ k =>
      have e1 : (writeChunks c (m + 1) lines)[k + 1]?
          = (writeChunks c m (lines.drop c))[k]? := by
        simp [writeChunks]
      rw [e1, ih k (lines.drop c) (by omega), List.drop_drop]
      have e2 : c + k * c = (k + 1) * c := by rw [add_one_mul]; omega
      rw [e2]

/-- A fresh run's split directory (no expected file exists) fails the
all-files-exist check as soon as there is at least one expected file. -/
lemma replicate_none_not_all (n : Nat) (h : 0 < n) :
    (List.replicate n (none : Option (List String))).all Option.isSome = false := by
  cases n with
  | zero => omega
  | succ m => simp [List.replicate_succ]

/-- A split directory in which every expected file exists passes the
all-files-exist check. -/
lemma map_some_all (l : List (List String)) :
    (l.map some).all Option.isSome = true := by
  induction l with
  | nil => rfl
  | cons a l ih => simp [ih]

/-- Reuse branch of `split_input_file` (scripts/slurm.py, lines 21-25): when
every expected split file exists, the split files are left untouched and the
returned total is the source's current line count. -/
lemma split_reuse (source : List String) (existing : List (Option (List String)))
    (n : Nat) (h : existing.all Option.isSome = true) :
    split_input_file source existing n = (existing, source.length) := by
  simp [split_input_file, h]

/-- Fresh branch of `split_input_file`: with no pre-existing split file the
chunks are computed and written. -/
lemma split_fresh (source : List String) (n : Nat) (h : 0 < n) :
    split_input_file source (List.replicate n none) n
      = ((writeChunks (chunkSizeOf source.length n) n source).map some,
          source.length) := by
  simp [split_input_file, replicate_none_not_all n h]

/-- C1 (code bug): with a recorded split-time total of 10 lines but per-unit
outputs concatenating to an artifact of only 9 lines, `main` still declares
success, reporting "expected 10 lines" — no line count of the final artifact
is taken and no comparison is made, although the claim (and the script's own
comment "Count lines for consistency check") call for a fatal
line-count-mismatch error. -/
theorem C1_no_validation :
    mainFinalize [some ["1", "2", "3", "4", "5", "6", "7", "8", "9"]] 10
      = Except.ok (["1", "2", "3", "4", "5", "6", "7", "8", "9"], 10) ∧
    (["1", "2", "3", "4", "5", "6", "7", "8", "9"] : List String).length = 9 :=
  ⟨rfl, rfl⟩

/-- C2 (counterexample): a four-unit run in which unit 2 exhausts its retries
(its job and its one replacement both classify as failed) while units 0, 1, 3
succeed. The monitor converges without reporting anything, and concatenation
— attempted unconditionally — has already written units 0 and 1's lines to
the final output path when it fails on unit 2's missing out file; so the run
does not fail "before anything is written". -/
theorem C2_counterexample :
    (monitor_jobs [⟨0, 0⟩, ⟨1, 1⟩, ⟨2, 2⟩, ⟨3, 3⟩] true checkUnit2Fails 4 2).isSome = true ∧
    concatenate_outputs [some ["x"], some ["y"], none, some ["z"]]
      = (Except.error "Expected output file not found: split_2_out.jsonl", ["x", "y"]) ∧
    (["x", "y"] : List String) ≠ [] :=
  ⟨rfl, rfl, by decide⟩

/-- C2 (amended): an `Exhausted` unit does not gate aggregation, because the
monitor records no per-unit outcome and returns nothing; `main` proceeds to
concatenation unconditionally. The run then fails to declare success only
because the exhausted unit's expected output file is missing when the
concatenation loop reaches it — and by that point the outputs of all earlier
units have already been written to the final output path. -/
theorem C2_thm (a b d : List String) :
    (∃ s : MonState,
      monitor_jobs [⟨0, 0⟩, ⟨1, 1⟩, ⟨2, 2⟩, ⟨3, 3⟩] true checkUnit2Fails 4 2 = some s ∧
      s.pending = [] ∧ s.history.length = 5) ∧
    concatenate_outputs [some a, some b, none, some d]
      = (Except.error "Expected output file not found: split_2_out.jsonl", a ++ b) ∧
    (∀ res, mainFinalize [some a, some b, none, some d] 10 ≠ Except.ok res) := by
  have hconc : concatenate_outputs [some a, some b, none, some d]
      = (Except.error "Expected output file not found: split_2_out.jsonl", a ++ b) := by
    have h := concatAux_firstMissing [a, b] [some d] 0 []
    simpa [concatenate_outputs] using h
  refine ⟨⟨_, rfl, rfl, rfl⟩, hconc, ?_⟩
  intro res h
  have h1 : (concatenate_outputs [some a, some b, none, some d]).1
      = Except.error "Expected output file not found: split_2_out.jsonl" := by
    rw [hconc]
  simp [mainFinalize, h1] at h

/-- C2 witness: the amended behaviour at concrete per-unit outputs — the
final output path already holds units 0 and 1's lines when the fatal error
for unit 2 is raised. -/
theorem C2_witness :
    concatenate_outputs [some ["x1"], some ["y1"], none, some ["z1"]]
      = (Except.error "Expected output file not found: split_2_out.jsonl",
          ["x1", "y1"]) :=
  (C2_thm ["x1"] ["y1"] ["z1"]).2.1

/-- C3 (code bug): a single unit whose job is classified as failed on every
poll. The retry dictionary starts the initial job at 3, but the replacement
job is recorded with 0 retries left, so after one resubmission the unit is
dropped: 2 jobs in total are ever created for the unit, not the 4 (= R + 1
with R = 3) the claim requires. -/
theorem C3_two_jobs :
    (monitor_jobs [⟨0, 0⟩] true (fun _ _ => some false) 1 2).map
      (fun s => s.history.length) = some 2 :=
  rfl

/-- C4: the job-state classification table. Empty `sacct` output, an
unrecognised first token (such as RUNNING, PENDING or UNKNOWNX), or a query
that raised an exception all classify as unknown (`none`), never as failed;
COMPLETED and COMPLETING classify as completed (`some true`); FAILED,
CANCELLED and TIMEOUT classify as failed (`some false`); and in general any
first token other than those five classifies as unknown. -/
theorem C4_table :
    check_job_completed none = none ∧
    check_job_completed (some "") = none ∧
    check_job_completed (some "COMPLETED") = some true ∧
    check_job_completed (some "COMPLETING") = some true ∧
    check_job_completed (some "FAILED") = some false ∧
    check_job_completed (some "CANCELLED") = some false ∧
    check_job_completed (some "TIMEOUT") = some false ∧
    check_job_completed (some "RUNNING") = none ∧
    check_job_completed (some "PENDING") = none ∧
    check_job_completed (some "UNKNOWNX") = none ∧
    (∀ (stdout state : String) (rest : List String),
      pySplit (pyStrip stdout) = state :: rest →
      state ≠ "COMPLETED" → state ≠ "COMPLETING" →
      state ≠ "FAILED" → state ≠ "CANCELLED" → state ≠ "TIMEOUT" →
      check_job_completed (some stdout) = none) := by
  refine ⟨rfl, rfl, rfl, rfl, rfl, rfl, rfl, rfl, rfl, rfl, ?_⟩
  intro stdout state rest hsplit h1 h2 h3 h4 h5
  by_cases h0 : pyStrip stdout = ""
  · rw [h0] at hsplit
    have hnil : pySplit "" = [] := rfl
    rw [hnil] at hsplit
    exact List.noConfusion hsplit
  · simp [check_job_completed, h0, hsplit, h1, h2, h3, h4, h5]

/-- C4 witness: the general any-other-token clause applied to the concrete
token WEIRD. -/
theorem C4_witness : check_job_completed (some "WEIRD") = none := by
  have h := C4_table
  exact h.2.2.2.2.2.2.2.2.2.2 "WEIRD" "WEIRD" [] rfl (by decide) (by decide) (by decide)
    (by decide) (by decide)

/-- C8 (counterexample): `resubmit_job` never examines the exit code of the
resubmission command — with exit code 1 but an stdout line
"Submitted batch job 42" it happily returns job id 42 instead of failing
fatally as the claim requires for a non-zero exit. -/
theorem C8_counterexample :
    resubmit_job ⟨1, "Submitted batch job 42", "e"⟩ = Except.ok 42 ∧ (1 : Int) ≠ 0 :=
  ⟨rfl, by decide⟩

/-- C8 (amended): the initial submission (`submit_job`) fails fatally on a
non-zero exit code, and otherwise returns the final whitespace-delimited
token of stdout parsed as a decimal integer, failing fatally when there is no
token or the token does not parse. Resubmission (`resubmit_job`), by
contrast, ignores the exit code entirely: its outcome depends only on stdout
and stderr, and it fails fatally exactly when no stdout line contains
"Submitted batch job" (or the matched line's final token does not parse). -/
theorem C8_thm :
    (∀ r : ProcResult, r.returncode ≠ 0 →
      submit_job r = Except.error ("Failed to submit job: " ++ r.stderr)) ∧
    (∀ (r : ProcResult) (tok : String) (id : Int), r.returncode = 0 →
      (pySplit (pyStrip r.stdout)).getLast? = some tok → pyInt tok = some id →
      submit_job r = Except.ok id) ∧
    (∀ r : ProcResult, r.returncode = 0 →
      (pySplit (pyStrip r.stdout)).getLast? = none →
      submit_job r = Except.error "IndexError: list index out of range") ∧
    (∀ (r : ProcResult) (tok : String), r.returncode = 0 →
      (pySplit (pyStrip r.stdout)).getLast? = some tok → pyInt tok = none →
      submit_job r = Except.error ("ValueError: invalid literal for int: " ++ tok)) ∧
    (∀ (rc1 rc2 : Int) (out err : String),
      resubmit_job ⟨rc1, out, err⟩ = resubmit_job ⟨rc2, out, err⟩) ∧
    (∀ r : ProcResult,
      (pySplitLines r.stdout).find?
        (fun line => containsSub "Submitted batch job".toList line.toList) = none →
      resubmit_job r = Except.error ("Failed to resubmit job: " ++ r.stderr)) := by
  refine ⟨?_, ?_, ?_, ?_, ?_, ?_⟩
  · intro r h; simp [submit_job, h]
  · intro r tok id h0 hlast hint; simp [submit_job, h0, hlast, hint]
  · intro r h0 hlast; simp [submit_job, h0, hlast]
  · intro r tok h0 hlast hint; simp [submit_job, h0, hlast, hint]
  · intro rc1 rc2 out err; rfl
  · intro r h; unfold resubmit_job; rw [h]

/-- C8 witness: the amended theorem applied at concrete process results —
a failed submission (exit 1) and a successful one (exit 0, job id 77). -/
theorem C8_witness :
    submit_job ⟨1, "", "boom"⟩ = Except.error ("Failed to submit job: " ++ "boom") ∧
    submit_job ⟨0, "Submitted batch job 77", ""⟩ = Except.ok 77 := by
  have h := C8_thm
  exact ⟨h.1 ⟨1, "", "boom"⟩ (by decide),
    h.2.1 ⟨0, "Submitted batch job 77", ""⟩ "77" 77 rfl rfl rfl⟩

/-- C5: for every source and every `n ≥ 1`, splitting a fresh directory uses
chunk size `chunkSizeOf total n` (characterised below as the ceiling of
`total / n`), and the resulting partitions are contiguous, non-overlapping
and exhaustive: concatenated in index order they reproduce the source
exactly, their line counts sum to `total`, and none exceeds the chunk size. -/
theorem C5_partition (source : List String) (n : Nat) (h : 1 ≤ n) :
    split_input_file source (List.replicate n none) n
      = ((writeChunks (chunkSizeOf source.length n) n source).map some,
          source.length) ∧
    (writeChunks (chunkSizeOf source.length n) n source).flatten = source ∧
    ((writeChunks (chunkSizeOf source.length n) n source).map List.length).sum
      = source.length ∧
    (∀ f ∈ writeChunks (chunkSizeOf source.length n) n source,
      f.length ≤ chunkSizeOf source.length n) ∧
    (∀ m : Nat, chunkSizeOf source.length n ≤ m ↔ source.length ≤ n * m) := by
  have hc := le_n_mul_chunkSizeOf source.length n h
  exact ⟨split_fresh source n h, writeChunks_flatten _ _ _ hc,
    writeChunks_sum _ _ _ hc, writeChunks_le _ _ _,
    fun m => chunkSizeOf_le_iff source.length n m h⟩

/-- C5 witness: a 3-line source split into 2 parts of at most 2 lines whose
concatenation restores the source. -/
theorem C5_witness :
    split_input_file ["a", "b", "c"] (List.replicate 2 none) 2
      = ([some ["a", "b"], some ["c"]], 3) ∧
    (writeChunks (chunkSizeOf 3 2) 2 ["a", "b", "c"]).flatten = ["a", "b", "c"] := by
  have h := C5_partition ["a", "b", "c"] 2 (by decide)
  exact ⟨h.1, h.2.1⟩

/-- C6: when every expected split file already exists, `split_input_file`
skips re-partitioning: it returns with the split files in exactly their
pre-call state (nothing is rewritten), while the returned total line count is
recomputed from the source file itself. -/
theorem C6_reuse (source : List String) (existing : List (Option (List String)))
    (n : Nat) (h : existing.all Option.isSome = true) :
    split_input_file source existing n = (existing, source.length) :=
  split_reuse source existing n h

/-- C6 witness: with a pre-existing (1-line) split file and a 2-line source,
the split file's content is returned unchanged and the total (2) is taken
from the source, not from the stale split. -/
theorem C6_witness :
    split_input_file ["p", "q"] [some ["x"]] 1 = ([some ["x"]], 2) :=
  C6_reuse ["p", "q"] [some ["x"]] 1 rfl

/-- C7: whenever some unit's expected `split_<i>_out.jsonl` file does not
exist (here the first such unit has index `pre.length`, the units before it
all having their outputs), aggregation raises a fatal `FileNotFoundError`
naming exactly that missing output file and `main` does not declare
success. -/
theorem C7_missing (pre : List (List String)) (rest : List (Option (List String)))
    (total : Nat) :
    mainFinalize (pre.map some ++ none :: rest) total
      = Except.error ("Expected output file not found: split_"
          ++ toString pre.length ++ "_out.jsonl") := by
  have h := concatAux_firstMissing pre rest 0 []
  have h1 : (concatenate_outputs (pre.map some ++ none :: rest)).1
      = Except.error ("Expected output file not found: split_"
          ++ toString pre.length ++ "_out.jsonl") := by
    unfold concatenate_outputs
    rw [h]
    simp
  simp [mainFinalize, h1]

/-- C9: with any positive initial retry budget `b` in the dictionary (the
script uses 3), a single unit whose job always classifies as failed is
resubmitted exactly once: the monitor converges with exactly two job records
for the unit, and the replacement job (id 1) is recorded with zero retries
remaining, which is why its own failure triggers no further resubmission. -/
theorem C9_single_retry (b : Nat) (hb : 0 < b) :
    ∃ s : MonState,
      monitorFuel true (fun _ _ => some false) 2 0
        ⟨[⟨0, 0⟩], [(0, b)], [⟨0, 0⟩], 1⟩ = some s ∧
      s.history = [⟨0, 0⟩, ⟨1, 0⟩] ∧ lookupD s.retries 1 = 0 ∧ s.pending = [] := by
  have hlook : lookupD [(0, b)] 0 = b := rfl
  have h1 : sweep true (fun _ => some false) ⟨[⟨0, 0⟩], [(0, b)], [⟨0, 0⟩], 1⟩
      = ⟨[⟨1, 0⟩], [(1, 0), (0, b)], [⟨0, 0⟩, ⟨1, 0⟩], 2⟩ := by
    simp only [sweep, List.foldl, sweepStep, hlook]
    rw [if_pos]
    · rfl
    · exact ⟨by trivial, hb⟩
  have h2 : monitorFuel true (fun _ _ => some false) 2 0
      ⟨[⟨0, 0⟩], [(0, b)], [⟨0, 0⟩], 1⟩
      = monitorFuel true (fun _ _ => some false) 1 1
          (sweep true (fun _ => some false) ⟨[⟨0, 0⟩], [(0, b)], [⟨0, 0⟩], 1⟩) := rfl
  rw [h2, h1]
  exact ⟨_, rfl, rfl, rfl, rfl⟩

/-- C9 witness: the single-retry theorem at the script's actual budget of 3,
which is `initMonState` for one job with id 0 and fresh ids from 1. -/
theorem C9_witness :
    ∃ s : MonState,
      monitorFuel true (fun _ _ => some false) 2 0
        ⟨[⟨0, 0⟩], [(0, 3)], [⟨0, 0⟩], 1⟩ = some s ∧
      s.history = [⟨0, 0⟩, ⟨1, 0⟩] ∧ lookupD s.retries 1 = 0 ∧ s.pending = [] :=
  C9_single_retry 3 (by decide)

/-- C10: the fresh split branch creates exactly `n` files; file `i` holds the
source lines with indices in `[i*c, min((i+1)*c, total))` for
`c = chunkSizeOf total n`; for `i*c ≥ total` the file is created empty yet
exists; and the resulting directory satisfies the all-files-exist reuse
check, so a second run leaves it untouched. -/
theorem C10_chunks (source : List String) (n : Nat) :
    (writeChunks (chunkSizeOf source.length n) n source).length = n ∧
    (∀ i, i < n → (writeChunks (chunkSizeOf source.length n) n source)[i]?
      = some ((source.drop (i * chunkSizeOf source.length n)).take
          (chunkSizeOf source.length n))) ∧
    (∀ i, i < n → source.length ≤ i * chunkSizeOf source.length n →
      (writeChunks (chunkSizeOf source.length n) n source)[i]? = some []) ∧
    split_input_file source
        ((writeChunks (chunkSizeOf source.length n) n source).map some) n
      = ((writeChunks (chunkSizeOf source.length n) n source).map some,
          source.length) := by
  refine ⟨writeChunks_length _ _ _, fun i hi => writeChunks_getElem _ _ i source hi,
    ?_, split_reuse _ _ _ (map_some_all _)⟩
  intro i hi hle
  rw [writeChunks_getElem _ _ i source hi, List.drop_eq_nil_of_le hle]
  simp

/-- C10 witness: 4 lines into 3 chunks of size 2 — the third chunk starts at
index 4 ≥ 4, so its file is created empty but exists. -/
theorem C10_witness :
    (writeChunks (chunkSizeOf 4 3) 3 ["a", "b", "c", "d"]).length = 3 ∧
    (writeChunks (chunkSizeOf 4 3) 3 ["a", "b", "c", "d"])[2]? = some [] := by
  have h := C10_chunks ["a", "b", "c", "d"] 3
  exact ⟨h.1, h.2.2.1 2 (by decide) (by decide)⟩
